import Mathlib

/-!
# Multi-line-Terminal: the event handlers of `main.cpp`

A shallow embedding of the callbacks and of the start-up sequence of `main.cpp`.
The program is glue over GTK and VTE, so the embedding is a state-passing one:
`State` holds the two module-level globals, the text of the input box, and a record
of every toolkit effect the callbacks can cause (bytes fed to the child, focus,
main-loop quit, console lines, signal connections, menu pop-ups, clipboard copies,
terminal constructions, spawn requests).  Each callback is a function
`State → State` (or `State → State × Bool` for the `gboolean` handlers), written
statement by statement after the C++ body.

Toolkit calls are modelled by their documented effect on that state:

* `vte_terminal_feed_child (term, text, length)` appends `length` bytes of `text`
  to the child's input stream;
* `gtk_text_buffer_get_text` returns the buffer text as a NUL-terminated C string,
  `gtk_text_buffer_set_text (buf, text, -1)` replaces it by the C string `text`;
* `gtk_widget_grab_focus (w)` moves input focus to `w`;
* `gtk_main_quit ()` terminates the event loop;
* `g_signal_connect` records a connection; `gtk_menu_popup_at_pointer` records a pop-up.

Bytes are natural numbers (`char` values `0 … 255`), texts are lists of bytes.
-/

namespace MultiLineTerminal

/-! ## Toolkit constants -/

/-- Value of `GDK_KEY_Return` in `gdk/gdkkeysyms.h`. -/
def GDK_KEY_Return : Nat := 0xff0d

/-- Value of `GDK_SHIFT_MASK` in `GdkModifierType` (`1 << 0`). -/
def GDK_SHIFT_MASK : Nat := 1

/-- Value of `GDK_CONTROL_MASK` in `GdkModifierType` (`1 << 2`). -/
def GDK_CONTROL_MASK : Nat := 4

/-- Value of `GDK_MOD1_MASK` (normally the Alt key) in `GdkModifierType` (`1 << 3`). -/
def GDK_MOD1_MASK : Nat := 8

/-- Value of `GDK_BUTTON_PRESS` in `GdkEventType`. -/
def GDK_BUTTON_PRESS : Int := 4

/-- Value of `GDK_2BUTTON_PRESS` in `GdkEventType`. -/
def GDK_2BUTTON_PRESS : Int := 5

/-- Value of `GDK_3BUTTON_PRESS` in `GdkEventType`. -/
def GDK_3BUTTON_PRESS : Int := 6

/-- Value of `GDK_BUTTON_RELEASE` in `GdkEventType`. -/
def GDK_BUTTON_RELEASE : Int := 7

/-- Value of `G_SPAWN_DEFAULT` in `GSpawnFlags`. -/
def G_SPAWN_DEFAULT : Nat := 0

/-- Value of `G_SPAWN_LEAVE_DESCRIPTORS_OPEN` in `GSpawnFlags` (`1 << 0`). -/
def G_SPAWN_LEAVE_DESCRIPTORS_OPEN : Nat := 1

/-- The line-feed byte, the only byte of the string literal `"\n"`. -/
def LF : Nat := 10

/-! ## Data model -/

/-- The widgets `main` constructs, named after its local variables. -/
inductive Widget where
  | window
  | vbox
  | terminal
  | scrolled_window_terminal
  | input_panel_label
  | input_textview
  | scrolled_window_input
  | context_menu
  | copy_item
  deriving DecidableEq, Repr

/-- The callbacks defined in `main.cpp`. -/
inductive Callback where
  | on_child_exited
  | on_window_destroy
  | on_spawn_ready
  | on_copy_activated
  | on_input_textview_key_press
  | on_button_press_event
  deriving DecidableEq, Repr

/-- One `g_signal_connect (instance, signal, callback, user_data)` registration. -/
structure Connection where
  inst : Widget
  signal : String
  callback : Callback
  user_data : Option Widget
  deriving DecidableEq, Repr

/-- The arguments of one `vte_terminal_spawn_async` call, in parameter order.
`none` stands for a `NULL` argument. -/
structure SpawnRequest where
  terminal : Widget
  pty_flags : Nat
  working_directory : Option String
  argv : List String
  envv : Option (List String)
  spawn_flags : Nat
  child_setup : Option Callback
  child_setup_data : Option Widget
  timeout : Int
  cancellable : Option Widget
  callback : Option Callback
  user_data : Option Widget
  deriving DecidableEq, Repr

/-- The fields of `GdkEventKey` the program reads. -/
structure GdkEventKey where
  keyval : Nat
  state : Nat
  deriving DecidableEq, Repr

/-- The fields of `GdkEventButton` the program reads. -/
structure GdkEventButton where
  type : Int
  button : Nat
  deriving DecidableEq, Repr

/-- The field of `GError` the program reads. -/
structure GError where
  message : String
  deriving DecidableEq, Repr

/-- Program state: the globals of `main.cpp`, the input box's text, and the record of
toolkit effects. -/
structure State where
  /-- The global `g_terminal_widget` (`none` is `NULL`). -/
  g_terminal_widget : Option Widget
  /-- The global `g_input_textview` (`none` is `NULL`). -/
  g_input_textview : Option Widget
  /-- Bytes of the text held by the buffer of the program's only `GtkTextView`. -/
  input_buffer : List Nat
  /-- Every byte passed to `vte_terminal_feed_child` so far, in order. -/
  child_input : List Nat
  /-- The widget holding input focus. -/
  focus : Option Widget
  /-- Whether `gtk_main_quit` has been called. -/
  quit : Bool
  /-- Lines written to `std::cout`. -/
  cout : List String
  /-- Lines written to `std::cerr`. -/
  cerr : List String
  /-- The `g_signal_connect` registrations made so far. -/
  connections : List Connection
  /-- The menus popped up by `gtk_menu_popup_at_pointer`, in order. -/
  menu_popups : List Widget
  /-- Number of `vte_terminal_copy_clipboard_format` calls. -/
  clipboard_copies : Nat
  /-- Number of `vte_terminal_new` calls. -/
  terminals_created : Nat
  /-- Number of assignments executed to `g_terminal_widget`. -/
  terminal_assignments : Nat
  /-- The `vte_terminal_spawn_async` calls made so far. -/
  spawn_requests : List SpawnRequest
  deriving DecidableEq, Repr

/-- The state at program start: both globals are `NULL`, nothing has happened. -/
def State.initial : State where
  g_terminal_widget := none
  g_input_textview := none
  input_buffer := []
  child_input := []
  focus := none
  quit := false
  cout := []
  cerr := []
  connections := []
  menu_popups := []
  clipboard_copies := 0
  terminals_created := 0
  terminal_assignments := 0
  spawn_requests := []

/-! ## Toolkit and library calls -/

/-- The bytes of a NUL-terminated C string: everything before the first NUL. -/
def c_string_bytes (p : List Nat) : List Nat :=
  p.takeWhile (fun b => b != 0)

/-- The constructor `std::string (const char *)`: copies the bytes up to the first NUL. -/
def std_string (p : List Nat) : List Nat :=
  c_string_bytes p

/-- The member `std::string::c_str`: the bytes followed by a terminating NUL. -/
def c_str (str : List Nat) : List Nat :=
  str ++ [0]

/-- The call `gtk_text_buffer_get_text (buffer, start, end, FALSE)` over the whole buffer:
a freshly allocated, NUL-terminated copy of the text.  The program creates no tags
and no embedded objects, so no part of the text is hidden. -/
def gtk_text_buffer_get_text (s : State) : List Nat :=
  s.input_buffer ++ [0]

/-- The call `gtk_text_buffer_set_text (buffer, text, len)`: the buffer's text becomes the
first `len` bytes of `text`, or the whole C string when `len` is negative. -/
def gtk_text_buffer_set_text (text : List Nat) (len : Int) (s : State) : State :=
  { s with input_buffer := if len < 0 then c_string_bytes text else text.take len.toNat }

/-- The call `vte_terminal_feed_child (terminal, text, length)`: sends `length` bytes of
`text` (the whole C string when `length` is `-1`) to the child. -/
def vte_terminal_feed_child (text : List Nat) (length : Int) (s : State) : State :=
  { s with child_input :=
      s.child_input ++ (if length < 0 then c_string_bytes text else text.take length.toNat) }

/-- The call `gtk_widget_grab_focus (widget)`. -/
def gtk_widget_grab_focus (widget : Widget) (s : State) : State :=
  { s with focus := some widget }

/-- The call `gtk_main_quit ()`. -/
def gtk_main_quit (s : State) : State :=
  { s with quit := true }

/-- The call `g_signal_connect (instance, signal, callback, user_data)`. -/
def g_signal_connect (inst : Widget) (signal : String) (callback : Callback)
    (user_data : Option Widget) (s : State) : State :=
  { s with connections := s.connections ++ [⟨inst, signal, callback, user_data⟩] }

/-- The call `gtk_menu_popup_at_pointer (menu, event)`. -/
def gtk_menu_popup_at_pointer (menu : Widget) (s : State) : State :=
  { s with menu_popups := s.menu_popups ++ [menu] }

/-- The call `vte_terminal_new ()`: constructs the terminal widget. -/
def vte_terminal_new (s : State) : Widget × State :=
  (Widget.terminal, { s with terminals_created := s.terminals_created + 1 })

/-- The call `vte_terminal_spawn_async (…)`: records the request; the spawn itself and
the later invocation of the completion callback belong to the library. -/
def vte_terminal_spawn_async (req : SpawnRequest) (s : State) : State :=
  { s with spawn_requests := s.spawn_requests ++ [req] }

/-- A line `std::cout << … << std::endl`. -/
def cout_line (line : String) (s : State) : State :=
  { s with cout := s.cout ++ [line] }

/-- A line `std::cerr << … << std::endl`. -/
def cerr_line (line : String) (s : State) : State :=
  { s with cerr := s.cerr ++ [line] }

/-! ## The callbacks of `main.cpp` -/

/-- `on_child_exited` (lines 16-19): log the status, quit the main loop. -/
def on_child_exited (_terminal : Widget) (status : Int) (s : State) : State :=
  let s1 := cout_line ("Child process exited with status: " ++ toString status) s
  gtk_main_quit s1

/-- `on_window_destroy` (lines 22-24). -/
def on_window_destroy (s : State) : State :=
  gtk_main_quit s

/-- `on_spawn_ready` (lines 28-43). -/
def on_spawn_ready (term : Widget) (status : Int) (error : Option GError)
    (s : State) : State :=
  match error with
  | some e =>
    let s1 := cerr_line ("Failed to spawn child process: " ++ e.message) s
    gtk_main_quit s1
  | none =>
    let s1 := cout_line
      ("Child process spawned successfully (status: " ++ toString status ++ ").") s
    let s2 := g_signal_connect term "child-exited" Callback.on_child_exited none s1
    match s2.g_input_textview with
    | some tv => gtk_widget_grab_focus tv s2
    | none => s2

/-- `on_copy_activated` (lines 46-51). -/
def on_copy_activated (s : State) : State :=
  match s.g_terminal_widget with
  | some _ =>
    let s1 := { s with clipboard_copies := s.clipboard_copies + 1 }
    cout_line "Text copied to clipboard." s1
  | none => s

/-- `on_input_textview_key_press` (lines 59-92).  The result pairs the new state with
the returned `gboolean`. -/
def on_input_textview_key_press (widget : Widget) (event : GdkEventKey)
    (s : State) : State × Bool :=
  if event.keyval == GDK_KEY_Return && (event.state &&& GDK_CONTROL_MASK) == 0 then
    match s.g_terminal_widget with
    | none => (s, true)
    | some _ =>
      let command_c_str := gtk_text_buffer_get_text s
      let command := std_string command_c_str
      let s1 := vte_terminal_feed_child (c_str command) command.length s
      let s2 := vte_terminal_feed_child [LF, 0] 1 s1
      let s3 := gtk_text_buffer_set_text [0] (-1) s2
      let s4 := gtk_widget_grab_focus widget s3
      (s4, true)
  else
    (s, false)

/-- `on_button_press_event` (lines 95-108); `user_data` is the menu given at connection. -/
def on_button_press_event (_widget : Widget) (event : GdkEventButton) (user_data : Widget)
    (s : State) : State × Bool :=
  if event.type == GDK_BUTTON_PRESS && event.button == 3 then
    let menu := user_data
    (gtk_menu_popup_at_pointer menu s, true)
  else
    (s, false)

/-! ## Start-up and the event loop -/

/-- The array `argv_spawn` of `main` (line 210), without its terminating `NULL`. -/
def argv_spawn : List String := ["/bin/bash"]

/-- The arguments `main` passes to `vte_terminal_spawn_async` (lines 212-226). -/
def main_spawn_request (term : Widget) : SpawnRequest where
  terminal := term
  pty_flags := 0
  working_directory := none
  argv := argv_spawn
  envv := none
  spawn_flags := G_SPAWN_DEFAULT ||| G_SPAWN_LEAVE_DESCRIPTORS_OPEN
  child_setup := none
  child_setup_data := none
  timeout := -1
  cancellable := none
  callback := some Callback.on_spawn_ready
  user_data := none

/-- The body of `main` up to the call of `gtk_main ()` (lines 111-237), restricted to the
statements that touch the modelled state.  `css_loaded` is the result of
`gtk_css_provider_load_from_path`, which depends on the file system. -/
def main_startup (css_loaded : Bool) (s : State) : State :=
  let s1 :=
    if css_loaded then cout_line "Loaded style.css successfully." s
    else cerr_line
      "Failed to load style.css. Make sure it's in the same directory as the executable." s
  let s2 := g_signal_connect Widget.window "destroy" Callback.on_window_destroy none s1
  let (term, s3) := vte_terminal_new s2
  let s4 := { s3 with g_terminal_widget := some term,
                      terminal_assignments := s3.terminal_assignments + 1 }
  let s5 := { s4 with g_input_textview := some Widget.input_textview }
  let s6 := g_signal_connect Widget.input_textview "key-press-event"
    Callback.on_input_textview_key_press none s5
  let s7 := vte_terminal_spawn_async (main_spawn_request term) s6
  let s8 := g_signal_connect Widget.copy_item "activate" Callback.on_copy_activated none s7
  g_signal_connect term "button-press-event" Callback.on_button_press_event
    (some Widget.context_menu) s8

/-- Emission of `key-press-event` on the input box.  The connected handler runs first;
when it returns `FALSE` the text view's own handling runs, which the toolkit owns and
which edits only the text: it is the parameter `dflt`. -/
def emit_key_press (dflt : GdkEventKey → List Nat → List Nat) (widget : Widget)
    (event : GdkEventKey) (s : State) : State :=
  let r := on_input_textview_key_press widget event s
  if r.2 then r.1 else { r.1 with input_buffer := dflt event r.1.input_buffer }

/-- The events the main loop can deliver to the program's callbacks. -/
inductive Event where
  | key_press (event : GdkEventKey)
  | button_press (event : GdkEventButton)
  | copy_activate
  | spawn_ready (status : Int) (error : Option GError)
  | child_exited (status : Int)
  | window_destroy
  deriving DecidableEq, Repr

/-- Delivery of one event: the callback connected for it in `main` runs, with the widget
and user data of its connection. -/
def deliver (dflt : GdkEventKey → List Nat → List Nat) (s : State) : Event → State
  | Event.key_press event => emit_key_press dflt Widget.input_textview event s
  | Event.button_press event =>
    (on_button_press_event Widget.terminal event Widget.context_menu s).1
  | Event.copy_activate => on_copy_activated s
  | Event.spawn_ready status error => on_spawn_ready Widget.terminal status error s
  | Event.child_exited status => on_child_exited Widget.terminal status s
  | Event.window_destroy => on_window_destroy s

/-- A run of the program: start-up, then the events in order. -/
def run (css_loaded : Bool) (dflt : GdkEventKey → List Nat → List Nat)
    (events : List Event) : State :=
  events.foldl (deliver dflt) (main_startup css_loaded State.initial)

/-- Value of `G_SPAWN_FILE_AND_ARGV_ZERO` in `GSpawnFlags` (`1 << 6`): when set, the
first element of `argv` is the file to run and the rest is the child's argument vector. -/
def G_SPAWN_FILE_AND_ARGV_ZERO : Nat := 64

/-- The argument vector the spawned program receives. -/
def child_argv (req : SpawnRequest) : List String :=
  if req.spawn_flags &&& G_SPAWN_FILE_AND_ARGV_ZERO != 0 then req.argv.drop 1 else req.argv

/-- The phrase "login shell" of the specification, read on a spawn request by the Unix
convention shells follow: a shell is a login shell when its argument zero begins with
`-` or when it is passed a login option. -/
def spec_requests_login_shell (req : SpawnRequest) : Bool :=
  match child_argv req with
  | [] => false
  | arg0 :: args =>
    arg0.data.head? == some '-' || args.any (fun a => a == "--login" || a == "-l")

/-! ## Helper lemmas -/

/-- A text without NUL byte is recovered whole from its NUL-terminated copy. -/
theorem c_string_bytes_terminated (t : List Nat) (hnul : ∀ b ∈ t, b ≠ 0) :
    c_string_bytes (t ++ [0]) = t := by
  induction t with
  | nil => rfl
  | cons a l ih =>
    have ha : a ≠ 0 := hnul a (List.mem_cons_self a l)
    have hl : ∀ b ∈ l, b ≠ 0 := fun b hb => hnul b (List.mem_cons_of_mem a hb)
    have ih2 := ih hl
    unfold c_string_bytes at ih2 ⊢
    have hb : (a != 0) = true := by simpa using ha
    simp [List.takeWhile, hb, ih2]

/-- The key test of `on_input_textview_key_press`, as a proposition. -/
theorem key_test_iff (event : GdkEventKey) :
    (event.keyval == GDK_KEY_Return && (event.state &&& GDK_CONTROL_MASK) == 0) = true
      ↔ event.keyval = GDK_KEY_Return ∧ event.state &&& GDK_CONTROL_MASK = 0 := by
  simp

/-- What the submitting branch of `on_input_textview_key_press` computes. -/
theorem key_press_submit (widget : Widget) (event : GdkEventKey) (s : State) (term : Widget)
    (hterm : s.g_terminal_widget = some term)
    (hkey : event.keyval = GDK_KEY_Return)
    (hctrl : event.state &&& GDK_CONTROL_MASK = 0) :
    on_input_textview_key_press widget event s =
      ({ s with
          child_input := s.child_input ++ c_string_bytes (s.input_buffer ++ [0]) ++ [LF],
          input_buffer := [],
          focus := some widget }, true) := by
  have hc : (c_string_bytes (s.input_buffer ++ [0]) ++ [0]).take
      (c_string_bytes (s.input_buffer ++ [0])).length
        = c_string_bytes (s.input_buffer ++ [0]) := by
    simp
  simp [on_input_textview_key_press, hterm, hkey, hctrl, gtk_text_buffer_get_text,
    std_string, c_str, vte_terminal_feed_child, gtk_text_buffer_set_text,
    gtk_widget_grab_focus, hc]
  simp [c_string_bytes]

/-! ## Sample inputs -/

/-- The state after start-up with the text `ls` typed into the input box. -/
def typed_ls : State :=
  { main_startup true State.initial with input_buffer := [108, 115] }

/-- The state before start-up (terminal handle still `NULL`) with the text `ls` in the
input box. -/
def typed_ls_no_terminal : State :=
  { State.initial with input_buffer := [108, 115] }

/-- The key event of Enter with no modifier bit set. -/
def plain_return : GdkEventKey := ⟨GDK_KEY_Return, 0⟩

/-- The key event of Enter with Shift held. -/
def shift_return : GdkEventKey := ⟨GDK_KEY_Return, GDK_SHIFT_MASK⟩

/-- The key event of Enter with Control and Shift held. -/
def ctrl_shift_return : GdkEventKey := ⟨GDK_KEY_Return, GDK_CONTROL_MASK ||| GDK_SHIFT_MASK⟩

/-- A default handling of the text view that appends a line feed on Enter. -/
def append_newline (event : GdkEventKey) (text : List Nat) : List Nat :=
  if event.keyval == GDK_KEY_Return then text ++ [LF] else text

/-! ## The input pane -/

/-- C1: with the terminal handle set, a plain Enter (keyval Return, Control not held)
feeds the child exactly the buffer text `t` followed by one line-feed byte: the child's
input stream grows by `t ++ [LF]`, whose length is `length t + 1`, and an empty buffer
sends just the line feed.  The text `t` of a `GtkTextBuffer` holds no NUL byte (the
toolkit stores validated UTF-8 only), which is what `hnul` records: the handler passes
the text through a C string. -/
theorem plain_enter_feeds_text_and_newline (widget : Widget) (event : GdkEventKey)
    (s : State) (term : Widget) (t : List Nat)
    (hterm : s.g_terminal_widget = some term)
    (hkey : event.keyval = GDK_KEY_Return)
    (hctrl : event.state &&& GDK_CONTROL_MASK = 0)
    (htext : s.input_buffer = t)
    (hnul : ∀ b ∈ t, b ≠ 0) :
    (on_input_textview_key_press widget event s).1.child_input
        = s.child_input ++ (t ++ [LF])
      ∧ (t ++ [LF]).length = t.length + 1
      ∧ (t = [] →
          (on_input_textview_key_press widget event s).1.child_input
            = s.child_input ++ [LF]) := by
  have h := key_press_submit widget event s term hterm hkey hctrl
  have hb := c_string_bytes_terminated t hnul
  rw [htext, hb] at h
  refine ⟨?_, by simp, ?_⟩
  · rw [h]; simp
  · intro ht
    rw [h, ht]; simp

/-- Witness of C1: the buffer `ls` is sent as `ls` and a line feed. -/
theorem plain_enter_feeds_text_and_newline_witness :
    typed_ls.g_terminal_widget = some Widget.terminal
      ∧ plain_return.keyval = GDK_KEY_Return
      ∧ plain_return.state &&& GDK_CONTROL_MASK = 0
      ∧ typed_ls.input_buffer = [108, 115]
      ∧ (∀ b ∈ [108, 115], b ≠ 0)
      ∧ (on_input_textview_key_press Widget.input_textview plain_return typed_ls).1.child_input
          = typed_ls.child_input ++ ([108, 115] ++ [LF]) :=
  ⟨rfl, rfl, rfl, rfl, by decide,
    (plain_enter_feeds_text_and_newline Widget.input_textview plain_return typed_ls
      Widget.terminal [108, 115] rfl rfl rfl rfl (by decide)).1⟩

/-- C2: with the terminal handle set, a plain Enter leaves the input buffer empty, puts
input focus on the text box the handler is attached to, and returns TRUE; delivered
through the event loop, the text view's default handling does not run, so the buffer
stays empty and the focus is on the input text view. -/
theorem plain_enter_clears_buffer_and_consumes (widget : Widget) (event : GdkEventKey)
    (s : State) (term : Widget)
    (hterm : s.g_terminal_widget = some term)
    (hkey : event.keyval = GDK_KEY_Return)
    (hctrl : event.state &&& GDK_CONTROL_MASK = 0) :
    (on_input_textview_key_press widget event s).1.input_buffer = []
      ∧ (on_input_textview_key_press widget event s).1.focus = some widget
      ∧ (on_input_textview_key_press widget event s).2 = true
      ∧ ∀ dflt : GdkEventKey → List Nat → List Nat,
          (deliver dflt s (Event.key_press event)).input_buffer = []
            ∧ (deliver dflt s (Event.key_press event)).focus = some Widget.input_textview := by
  have h := key_press_submit widget event s term hterm hkey hctrl
  have h2 := key_press_submit Widget.input_textview event s term hterm hkey hctrl
  refine ⟨by rw [h], by rw [h], by rw [h], ?_⟩
  intro dflt
  simp [deliver, emit_key_press, h2]

/-- Witness of C2: after Enter on the buffer `ls` the buffer is empty. -/
theorem plain_enter_clears_buffer_and_consumes_witness :
    typed_ls.g_terminal_widget = some Widget.terminal
      ∧ plain_return.keyval = GDK_KEY_Return
      ∧ plain_return.state &&& GDK_CONTROL_MASK = 0
      ∧ (on_input_textview_key_press Widget.input_textview plain_return typed_ls).1.input_buffer
          = []
      ∧ (on_input_textview_key_press Widget.input_textview plain_return typed_ls).2 = true :=
  ⟨rfl, rfl, rfl,
    (plain_enter_clears_buffer_and_consumes Widget.input_textview plain_return typed_ls
      Widget.terminal rfl rfl rfl).1,
    (plain_enter_clears_buffer_and_consumes Widget.input_textview plain_return typed_ls
      Widget.terminal rfl rfl rfl).2.2.1⟩

/-- C3: on Return with the Control bit set, whatever the other modifier bits and whether
or not the terminal handle is set, the handler returns FALSE and leaves the whole state
as it was (buffer not cleared, nothing fed to the child); the emission therefore goes on
to the text view's default handling `dflt`, which receives the untouched buffer. -/
theorem ctrl_enter_is_left_to_default (dflt : GdkEventKey → List Nat → List Nat)
    (widget : Widget) (event : GdkEventKey) (s : State)
    (hkey : event.keyval = GDK_KEY_Return)
    (hctrl : event.state &&& GDK_CONTROL_MASK ≠ 0) :
    on_input_textview_key_press widget event s = (s, false)
      ∧ (on_input_textview_key_press widget event s).1.input_buffer = s.input_buffer
      ∧ (on_input_textview_key_press widget event s).1.child_input = s.child_input
      ∧ emit_key_press dflt widget event s
          = { s with input_buffer := dflt event s.input_buffer } := by
  have h : on_input_textview_key_press widget event s = (s, false) := by
    simp [on_input_textview_key_press, hkey, hctrl]
  refine ⟨h, by rw [h], by rw [h], ?_⟩
  simp [emit_key_press, h]

/-- Witness of C3: Control+Shift+Enter on the buffer `ls`, with a default handling that
appends the line feed. -/
theorem ctrl_enter_is_left_to_default_witness :
    ctrl_shift_return.keyval = GDK_KEY_Return
      ∧ ctrl_shift_return.state &&& GDK_CONTROL_MASK ≠ 0
      ∧ on_input_textview_key_press Widget.input_textview ctrl_shift_return typed_ls
          = (typed_ls, false)
      ∧ (emit_key_press append_newline Widget.input_textview ctrl_shift_return
          typed_ls).input_buffer = [108, 115, LF] :=
  ⟨rfl, by decide,
    (ctrl_enter_is_left_to_default append_newline Widget.input_textview ctrl_shift_return
      typed_ls rfl (by decide)).1,
    by
      rw [(ctrl_enter_is_left_to_default append_newline Widget.input_textview
        ctrl_shift_return typed_ls rfl (by decide)).2.2.2]
      rfl⟩

/-- C8: with the terminal handle `NULL`, a plain Enter returns TRUE and changes nothing:
the state after the call is the state before it (buffer kept, nothing fed to a child,
focus where it was). -/
theorem plain_enter_without_terminal_is_noop (widget : Widget) (event : GdkEventKey)
    (s : State)
    (hterm : s.g_terminal_widget = none)
    (hkey : event.keyval = GDK_KEY_Return)
    (hctrl : event.state &&& GDK_CONTROL_MASK = 0) :
    on_input_textview_key_press widget event s = (s, true)
      ∧ (on_input_textview_key_press widget event s).1.input_buffer = s.input_buffer
      ∧ (on_input_textview_key_press widget event s).1.child_input = s.child_input
      ∧ (on_input_textview_key_press widget event s).1.focus = s.focus := by
  have h : on_input_textview_key_press widget event s = (s, true) := by
    simp [on_input_textview_key_press, hterm, hkey, hctrl]
  exact ⟨h, by rw [h], by rw [h], by rw [h]⟩

/-- Witness of C8: Enter on the buffer `ls` before the terminal exists. -/
theorem plain_enter_without_terminal_is_noop_witness :
    typed_ls_no_terminal.g_terminal_widget = none
      ∧ plain_return.keyval = GDK_KEY_Return
      ∧ plain_return.state &&& GDK_CONTROL_MASK = 0
      ∧ on_input_textview_key_press Widget.input_textview plain_return typed_ls_no_terminal
          = (typed_ls_no_terminal, true) :=
  ⟨rfl, rfl, rfl,
    (plain_enter_without_terminal_is_noop Widget.input_textview plain_return
      typed_ls_no_terminal rfl rfl rfl).1⟩

/-- C4, as stated, fails: Enter with Shift held is not a plain Enter in the claim's sense
(a modifier is held), yet with the text `ls` typed the handler returns TRUE, feeds the
child `ls` and a line feed, and clears the buffer. -/
theorem shift_enter_is_submitted :
    shift_return.keyval = GDK_KEY_Return
      ∧ shift_return.state = GDK_SHIFT_MASK
      ∧ shift_return.state ≠ 0
      ∧ (on_input_textview_key_press Widget.input_textview shift_return typed_ls).2 = true
      ∧ (on_input_textview_key_press Widget.input_textview shift_return typed_ls).1.child_input
          = [108, 115, LF]
      ∧ (on_input_textview_key_press Widget.input_textview shift_return typed_ls).1.input_buffer
          = []
      ∧ on_input_textview_key_press Widget.input_textview shift_return typed_ls
          ≠ (typed_ls, false) := by
  refine ⟨rfl, rfl, by decide, rfl, rfl, rfl, ?_⟩
  intro h
  have h2 := congrArg Prod.snd h
  exact absurd h2 (by decide)

/-- C4, amended: the handler tests the Control bit only.  It returns TRUE exactly when
the key is Return and Control is not held; for every other event (a key other than
Return, or Return with Control held) it returns FALSE and leaves the state as it was;
it changes the state only on Return without Control with the terminal handle set, and
then it submits: the child is fed the buffer text and a line feed, the buffer is cleared. -/
theorem key_press_consumes_iff_return_without_control (widget : Widget)
    (event : GdkEventKey) (s : State) :
    ((on_input_textview_key_press widget event s).2 = true
        ↔ (event.keyval = GDK_KEY_Return ∧ event.state &&& GDK_CONTROL_MASK = 0))
      ∧ (¬ (event.keyval = GDK_KEY_Return ∧ event.state &&& GDK_CONTROL_MASK = 0) →
          on_input_textview_key_press widget event s = (s, false))
      ∧ ((on_input_textview_key_press widget event s).1 ≠ s →
          event.keyval = GDK_KEY_Return ∧ event.state &&& GDK_CONTROL_MASK = 0
            ∧ s.g_terminal_widget ≠ none)
      ∧ (event.keyval = GDK_KEY_Return ∧ event.state &&& GDK_CONTROL_MASK = 0
            ∧ s.g_terminal_widget ≠ none →
          (on_input_textview_key_press widget event s).1.child_input
              = s.child_input ++ c_string_bytes (s.input_buffer ++ [0]) ++ [LF]
            ∧ (on_input_textview_key_press widget event s).1.input_buffer = []) := by
  by_cases hk : event.keyval = GDK_KEY_Return ∧ event.state &&& GDK_CONTROL_MASK = 0
  · obtain ⟨hkey, hctrl⟩ := hk
    cases hterm : s.g_terminal_widget with
    | none =>
      have h : on_input_textview_key_press widget event s = (s, true) := by
        simp [on_input_textview_key_press, hterm, hkey, hctrl]
      simp [h, hkey, hctrl]
    | some term =>
      have h := key_press_submit widget event s term hterm hkey hctrl
      simp [h, hkey, hctrl]
  · have h : on_input_textview_key_press widget event s = (s, false) := by
      have hb : (event.keyval == GDK_KEY_Return
          && (event.state &&& GDK_CONTROL_MASK) == 0) = false := by
        rw [Bool.eq_false_iff]
        intro hc
        exact hk ((key_test_iff event).1 hc)
      simp only [on_input_textview_key_press, hb]
      rfl
    refine ⟨?_, fun _ => h, ?_, ?_⟩
    · rw [h]; simp; intro a b; exact hk ⟨a, b⟩
    · intro hne; rw [h] at hne; exact absurd rfl hne
    · intro hh; exact absurd ⟨hh.1, hh.2.1⟩ hk

/-! ## The context menu -/

/-- C5: `on_button_press_event` returns TRUE exactly when the event type is
`GDK_BUTTON_PRESS` and the button is 3, and exactly then the menu given as user data is
popped up; on every other event (another button, a release, a double or triple press,
also of button 3) it returns FALSE and the state, its list of pop-ups included, is as
before. -/
theorem button_press_opens_menu_iff_right_click (widget : Widget) (event : GdkEventButton)
    (menu : Widget) (s : State) :
    ((on_button_press_event widget event menu s).2 = true
        ↔ (event.type = GDK_BUTTON_PRESS ∧ event.button = 3))
      ∧ ((on_button_press_event widget event menu s).1.menu_popups = s.menu_popups ++ [menu]
        ↔ (event.type = GDK_BUTTON_PRESS ∧ event.button = 3))
      ∧ (¬ (event.type = GDK_BUTTON_PRESS ∧ event.button = 3) →
          on_button_press_event widget event menu s = (s, false))
      ∧ (event.type = GDK_BUTTON_RELEASE ∨ event.type = GDK_2BUTTON_PRESS
            ∨ event.type = GDK_3BUTTON_PRESS →
          on_button_press_event widget event menu s = (s, false)) := by
  by_cases hk : event.type = GDK_BUTTON_PRESS ∧ event.button = 3
  · obtain ⟨ht, hb⟩ := hk
    have h : on_button_press_event widget event menu s
        = (gtk_menu_popup_at_pointer menu s, true) := by
      simp [on_button_press_event, ht, hb]
    refine ⟨by simp [h, ht, hb], by simp [h, ht, hb, gtk_menu_popup_at_pointer],
      fun hn => absurd ⟨ht, hb⟩ hn, ?_⟩
    intro ho
    rw [ht] at ho
    rcases ho with h1 | h1 | h1 <;> exact absurd h1 (by decide)
  · have h : on_button_press_event widget event menu s = (s, false) := by
      have hb : (event.type == GDK_BUTTON_PRESS && event.button == 3) = false := by
        rw [Bool.eq_false_iff]
        intro hc
        simp at hc
        exact hk hc
      simp only [on_button_press_event, hb]
      rfl
    refine ⟨?_, ?_, fun _ => h, fun _ => h⟩
    · rw [h]; simp; intro a b; exact hk ⟨a, b⟩
    · rw [h]; simp; intro a b; exact hk ⟨a, b⟩

/-! ## Start-up invariants -/

/-- No event delivery touches the globals, the terminal count, the assignment count or
the spawn requests. -/
theorem deliver_frame (dflt : GdkEventKey → List Nat → List Nat) (s : State) (e : Event) :
    (deliver dflt s e).g_terminal_widget = s.g_terminal_widget
      ∧ (deliver dflt s e).g_input_textview = s.g_input_textview
      ∧ (deliver dflt s e).terminals_created = s.terminals_created
      ∧ (deliver dflt s e).terminal_assignments = s.terminal_assignments
      ∧ (deliver dflt s e).spawn_requests = s.spawn_requests := by
  cases e with
  | key_press event =>
    simp only [deliver, emit_key_press, on_input_textview_key_press]
    split
    · cases h : s.g_terminal_widget <;>
        simp [vte_terminal_feed_child, gtk_text_buffer_set_text, gtk_widget_grab_focus, h]
    · simp
  | button_press event =>
    simp only [deliver, on_button_press_event]
    split <;> simp [gtk_menu_popup_at_pointer]
  | copy_activate =>
    simp only [deliver, on_copy_activated]
    cases h : s.g_terminal_widget <;> simp [cout_line, h]
  | spawn_ready status error =>
    cases error with
    | some e => simp [deliver, on_spawn_ready, cerr_line, gtk_main_quit]
    | none =>
      cases h : s.g_input_textview <;>
        simp [deliver, on_spawn_ready, cout_line, g_signal_connect, gtk_widget_grab_focus, h]
  | child_exited status => simp [deliver, on_child_exited, cout_line, gtk_main_quit]
  | window_destroy => simp [deliver, on_window_destroy, gtk_main_quit]

/-- The frame of `deliver`, over a whole sequence of events. -/
theorem deliver_all_frame (dflt : GdkEventKey → List Nat → List Nat) (events : List Event)
    (s : State) :
    (events.foldl (deliver dflt) s).g_terminal_widget = s.g_terminal_widget
      ∧ (events.foldl (deliver dflt) s).g_input_textview = s.g_input_textview
      ∧ (events.foldl (deliver dflt) s).terminals_created = s.terminals_created
      ∧ (events.foldl (deliver dflt) s).terminal_assignments = s.terminal_assignments
      ∧ (events.foldl (deliver dflt) s).spawn_requests = s.spawn_requests := by
  induction events generalizing s with
  | nil => simp
  | cons e rest ih =>
    have h1 := deliver_frame dflt s e
    have h2 := ih (deliver dflt s e)
    simp only [List.foldl_cons]
    refine ⟨h2.1.trans h1.1, h2.2.1.trans h1.2.1, h2.2.2.1.trans h1.2.2.1,
      h2.2.2.2.1.trans h1.2.2.2.1, h2.2.2.2.2.trans h1.2.2.2.2⟩

/-- What start-up leaves in the globals, the counters and the spawn requests. -/
theorem main_startup_facts (css_loaded : Bool) :
    (main_startup css_loaded State.initial).g_terminal_widget = some Widget.terminal
      ∧ (main_startup css_loaded State.initial).g_input_textview = some Widget.input_textview
      ∧ (main_startup css_loaded State.initial).terminals_created = 1
      ∧ (main_startup css_loaded State.initial).terminal_assignments = 1
      ∧ (main_startup css_loaded State.initial).spawn_requests
          = [main_spawn_request Widget.terminal] := by
  cases css_loaded <;> exact ⟨rfl, rfl, rfl, rfl, rfl⟩

/-- In every run both globals hold the widgets start-up stored in them, and the
counters and the spawn requests are those of start-up. -/
theorem run_facts (css_loaded : Bool) (dflt : GdkEventKey → List Nat → List Nat)
    (events : List Event) :
    (run css_loaded dflt events).g_terminal_widget = some Widget.terminal
      ∧ (run css_loaded dflt events).g_input_textview = some Widget.input_textview
      ∧ (run css_loaded dflt events).terminals_created = 1
      ∧ (run css_loaded dflt events).terminal_assignments = 1
      ∧ (run css_loaded dflt events).spawn_requests = [main_spawn_request Widget.terminal] := by
  have h1 := main_startup_facts css_loaded
  have h2 := deliver_all_frame dflt events (main_startup css_loaded State.initial)
  unfold run
  exact ⟨h2.1.trans h1.1, h2.2.1.trans h1.2.1, h2.2.2.1.trans h1.2.2.1,
    h2.2.2.2.1.trans h1.2.2.2.1, h2.2.2.2.2.trans h1.2.2.2.2⟩

/-! ## Spawn completion and child exit -/

/-- C6: the outcome of `on_spawn_ready` is decided by the presence of an error.  With an
error the main loop is quit, nothing is fed to the child, no handler is connected and the
focus stays where it was.  Without an error the callback does not quit the main loop, it
connects `on_child_exited` to `child-exited` on the terminal, and it moves the focus to
the widget stored in `g_input_textview`, which in every run of the program is the input
text view.  Two calls that differ only in the status give the same state apart from the
logged line. -/
theorem spawn_ready_outcome (term : Widget) (status : Int) (s : State) :
    (∀ e : GError,
        (on_spawn_ready term status (some e) s).quit = true
          ∧ (on_spawn_ready term status (some e) s).child_input = s.child_input
          ∧ (on_spawn_ready term status (some e) s).connections = s.connections
          ∧ (on_spawn_ready term status (some e) s).focus = s.focus)
      ∧ ((on_spawn_ready term status none s).quit = s.quit
          ∧ (on_spawn_ready term status none s).connections
              = s.connections ++ [⟨term, "child-exited", Callback.on_child_exited, none⟩]
          ∧ ∀ tv, s.g_input_textview = some tv →
              (on_spawn_ready term status none s).focus = some tv)
      ∧ (∀ (css_loaded : Bool) (dflt : GdkEventKey → List Nat → List Nat)
            (events : List Event),
          (on_spawn_ready term status none (run css_loaded dflt events)).quit
              = (run css_loaded dflt events).quit
            ∧ (on_spawn_ready term status none (run css_loaded dflt events)).focus
              = some Widget.input_textview)
      ∧ (∀ (status2 : Int) (error : Option GError),
          { on_spawn_ready term status error s with
              cout := (on_spawn_ready term status2 error s).cout }
            = on_spawn_ready term status2 error s) := by
  refine ⟨?_, ?_, ?_, ?_⟩
  · intro e
    simp [on_spawn_ready, cerr_line, gtk_main_quit]
  · refine ⟨?_, ?_, ?_⟩
    · cases h : s.g_input_textview <;>
        simp [on_spawn_ready, cout_line, g_signal_connect, gtk_widget_grab_focus, h]
    · cases h : s.g_input_textview <;>
        simp [on_spawn_ready, cout_line, g_signal_connect, gtk_widget_grab_focus, h]
    · intro tv h
      simp [on_spawn_ready, cout_line, g_signal_connect, gtk_widget_grab_focus, h]
  · intro css_loaded dflt events
    have h := (run_facts css_loaded dflt events).2.1
    simp [on_spawn_ready, cout_line, g_signal_connect, gtk_widget_grab_focus, h]
  · intro status2 error
    cases error with
    | some e => simp [on_spawn_ready, cerr_line, gtk_main_quit]
    | none =>
      cases h : s.g_input_textview <;>
        simp [on_spawn_ready, cout_line, g_signal_connect, gtk_widget_grab_focus, h]

/-- C7: for every status `on_child_exited` quits the main loop.  The state after it is
the state before it with the status line logged and the loop quit: no terminal is
created and no spawn is requested, and two calls that differ only in the status give the
same state apart from the logged line. -/
theorem child_exit_always_quits (term : Widget) (status : Int) (s : State) :
    (on_child_exited term status s).quit = true
      ∧ on_child_exited term status s
          = { s with quit := true,
                     cout := s.cout ++ ["Child process exited with status: "
                       ++ toString status] }
      ∧ (on_child_exited term status s).spawn_requests = s.spawn_requests
      ∧ (on_child_exited term status s).terminals_created = s.terminals_created
      ∧ (∀ status2 : Int,
          { on_child_exited term status s with
              cout := (on_child_exited term status2 s).cout }
            = on_child_exited term status2 s)
      ∧ (∀ (dflt : GdkEventKey → List Nat → List Nat),
          (deliver dflt s (Event.child_exited status)).quit = true) := by
  refine ⟨rfl, rfl, rfl, rfl, fun _ => rfl, fun _ => rfl⟩

/-! ## One terminal, one spawn -/

/-- C9: in every run (start-up followed by any sequence of delivered events) at most one
terminal widget has been created, `g_terminal_widget` has been assigned at most once and
holds the terminal start-up stored in it, and at most one spawn has been requested;
delivering an event, whichever callback it reaches, creates no terminal, does not assign
the handle and requests no spawn. -/
theorem one_terminal_one_spawn_per_run (css_loaded : Bool)
    (dflt : GdkEventKey → List Nat → List Nat) (events : List Event) :
    (run css_loaded dflt events).terminals_created ≤ 1
      ∧ (run css_loaded dflt events).terminal_assignments ≤ 1
      ∧ (run css_loaded dflt events).g_terminal_widget
          = (main_startup css_loaded State.initial).g_terminal_widget
      ∧ (run css_loaded dflt events).g_terminal_widget = some Widget.terminal
      ∧ (run css_loaded dflt events).spawn_requests.length ≤ 1
      ∧ (∀ (s : State) (e : Event),
          (deliver dflt s e).terminals_created = s.terminals_created
            ∧ (deliver dflt s e).terminal_assignments = s.terminal_assignments
            ∧ (deliver dflt s e).g_terminal_widget = s.g_terminal_widget
            ∧ (deliver dflt s e).spawn_requests = s.spawn_requests) := by
  have h := run_facts css_loaded dflt events
  have h0 := main_startup_facts css_loaded
  refine ⟨by rw [h.2.2.1], by rw [h.2.2.2.1], by rw [h.1, h0.1], h.1,
    by rw [h.2.2.2.2]; simp, ?_⟩
  intro s e
  have hf := deliver_frame dflt s e
  exact ⟨hf.2.2.1, hf.2.2.2.1, hf.1, hf.2.2.2.2⟩

/-! ## The spawn request -/

/-- C10, as stated, fails on "login shell": the request `main` issues runs `/bin/bash`
with argument zero `/bin/bash` and no option, which by the convention for login shells
(argument zero beginning with `-`, or a login option) is not a login shell. -/
theorem main_spawn_is_not_a_login_shell :
    (run true append_newline []).spawn_requests = [main_spawn_request Widget.terminal]
      ∧ child_argv (main_spawn_request Widget.terminal) = ["/bin/bash"]
      ∧ spec_requests_login_shell (main_spawn_request Widget.terminal) = false := by
  refine ⟨rfl, by decide, by decide⟩

/-- C10, amended: the one spawn request of a run launches the shell `/bin/bash` with no
arguments, as an ordinary (not a login) shell: its argument vector holds only the shell
program, it names no working directory and no environment (the child inherits the
parent's), and its flags include `G_SPAWN_LEAVE_DESCRIPTORS_OPEN`. -/
theorem main_spawn_request_shape (css_loaded : Bool)
    (dflt : GdkEventKey → List Nat → List Nat) (events : List Event) :
    (run css_loaded dflt events).spawn_requests = [main_spawn_request Widget.terminal]
      ∧ (main_spawn_request Widget.terminal).argv = ["/bin/bash"]
      ∧ child_argv (main_spawn_request Widget.terminal) = ["/bin/bash"]
      ∧ spec_requests_login_shell (main_spawn_request Widget.terminal) = false
      ∧ (main_spawn_request Widget.terminal).working_directory = none
      ∧ (main_spawn_request Widget.terminal).envv = none
      ∧ (main_spawn_request Widget.terminal).spawn_flags &&& G_SPAWN_LEAVE_DESCRIPTORS_OPEN
          = G_SPAWN_LEAVE_DESCRIPTORS_OPEN
      ∧ (main_spawn_request Widget.terminal).spawn_flags &&& G_SPAWN_LEAVE_DESCRIPTORS_OPEN
          ≠ 0 := by
  refine ⟨(run_facts css_loaded dflt events).2.2.2.2, rfl, by decide, by decide, rfl, rfl,
    by decide, by decide⟩

end MultiLineTerminal
